import Mathlib

/-!
Verification of the Prior ProScanIII serial-protocol engine
(`microscope/controllers/prior.py`).

The embedding models the serial transport (pyserial `Serial`) as a record
holding the configured read timeout, the pending input bytes (each tagged
with its arrival time, in abstract discrete time units measured from the
start of a read call), and the log of frames written to the wire.  Each
method of `_ProScanIIIConnection`, `_ProScanIIIStageAxis` and
`_ProScanIIIFilterWheel` becomes a function from a `Transport` to a result
paired with the updated `Transport`; Python exceptions become `Except`
values carrying the same diagnostic payloads as the `RuntimeError` /
`ValueError` / `AssertionError` raised by the source.
-/

deriving instance DecidableEq for Except

namespace PriorProScan

/-- Byte strings of the wire protocol, modelled as lists of characters. -/
abbrev Bytes := List Char

/-- Literal byte string. -/
def bs (s : String) : Bytes := s.data

/-- Model of the pyserial `Serial` object owned by `_ProScanIIIConnection`:
the configured read timeout, the pending input (each byte tagged with the
time at which it becomes available, measured from the start of a read),
and the log of frames written to the device. -/
structure Transport where
  timeout : Nat
  input : List (Nat × Char)
  written : List Bytes
deriving DecidableEq

/-- Model of pyserial `Serial.read_until(term)`: consume available bytes
(arrival time within the current timeout `t`) one at a time, returning as
soon as the accumulated bytes end with `term`; on timeout or exhausted
input return the (possibly truncated, possibly empty) bytes read so far,
leaving the rest in the buffer. -/
def readUntilAux (term : Bytes) (t : Nat) (input : List (Nat × Char))
    (acc : Bytes) : Bytes × List (Nat × Char) :=
  if term.isSuffixOf acc then (acc, input)
  else
    match input with
    | [] => (acc, [])
    | (d, c) :: rest =>
      if d ≤ t then readUntilAux term t rest (acc ++ [c])
      else (acc, (d, c) :: rest)

/-- `self._serial.read_until(term)` with the transport's current timeout. -/
def serialReadUntil (term : Bytes) (tr : Transport) : Bytes × Transport :=
  let r := readUntilAux term tr.timeout tr.input []
  (r.1, { tr with input := r.2 })

/-- Exceptions raised by the Python code, with their diagnostic payloads. -/
inductive PyError where
  /-- `RuntimeError("command '%s' failed (got '%s')")` in `_command_and_validate`. -/
  | commandFailed (cmd answer : Bytes)
  /-- `RuntimeError("Failed to get description '%s' (got '%s')")` in `_has_thing`. -/
  | descriptionFailed (cmd answer : Bytes)
  /-- `RuntimeError("Failed to identify a ProScanIII device on port %s ...")` in `__init__`. -/
  | identFailed (port : String) (answer : Bytes)
  /-- `RuntimeError("Failed to find end of the '?' command")` in `__init__`. -/
  | endNotFound
  /-- `ValueError` raised by `int()` on an unparsable reply. -/
  | parseFailed (answer : Bytes)
  /-- `ValueError('name must be X or Y')` in `_ProScanIIIStageAxis.__init__`. -/
  | valueError (msg : String)
  /-- `AssertionError` from `assert_filterwheel_number` / `assert_axis_name`. -/
  | assertionFailed
  /-- `RuntimeError('we should never have got here')`. -/
  | runtimeError (msg : String)
deriving DecidableEq

/-- `command(self, command)`: write `command + b'\r'` to the transport. -/
def command (cmd : Bytes) (tr : Transport) : Transport :=
  { tr with written := tr.written ++ [cmd ++ bs "\r"] }

/-- `readline(self)`: `self._serial.read_until(b'\r')`. -/
def readline (tr : Transport) : Bytes × Transport :=
  serialReadUntil (bs "\r") tr

/-- `read_until_timeout(self)`: `flushInput()` discards the pending input
buffer, after which the `readline()` loop sees only empty reads (no new
bytes arrive in this single-exchange model) and terminates at once. -/
def read_until_timeout (tr : Transport) : Transport :=
  { tr with input := [] }

/-- `get_command(self, command)`: send the command and return the answer. -/
def get_command (cmd : Bytes) (tr : Transport) : Bytes × Transport :=
  readline (command cmd tr)

/-- `_command_and_validate(self, command, expected)`: send command, read
the reply, and on any reply other than `expected` drain the buffer and
raise `RuntimeError` carrying the command and the actual reply. -/
def command_and_validate (cmd expected : Bytes) (tr : Transport) :
    Except PyError Unit × Transport :=
  let r := get_command cmd tr
  if r.1 = expected then (.ok (), r.2)
  else (.error (.commandFailed cmd r.1), read_until_timeout r.2)

/-- `changed_timeout(self, new_timeout)`: context manager that swaps the
transport timeout for the duration of the body and restores the previous
value in a `finally` block, hence on every exit path (the body's result,
of arbitrary type `α`, may in particular be an `Except` recording an
exception propagating out of the block). -/
def changed_timeout {α : Type} (new : Nat) (body : Transport → α × Transport)
    (tr : Transport) : α × Transport :=
  let previous := tr.timeout
  let r := body { tr with timeout := new }
  (r.1, { r.2 with timeout := previous })

/-- `set_command(self, command)`: a set command must be acknowledged by `b'0\r'`. -/
def set_command (cmd : Bytes) (tr : Transport) : Except PyError Unit × Transport :=
  command_and_validate cmd (bs "0\r") tr

/-- `move_command(self, command)`: run `_command_and_validate(command, b'R\r')`
inside `changed_timeout(10 * self._serial.timeout)`. -/
def move_command (cmd : Bytes) (tr : Transport) : Except PyError Unit × Transport :=
  changed_timeout (10 * tr.timeout) (command_and_validate cmd (bs "R\r")) tr

/-- `get_description(self, command)`: send the command and return the
result of a single `self._serial.read_until(b'\rEND\r')`. -/
def get_description (cmd : Bytes) (tr : Transport) : Bytes × Transport :=
  serialReadUntil (bs "\rEND\r") (command cmd tr)

/-- `_has_thing(self, command, expected_start)`: probe with a description
command; a reply that does not start with `expected_start` drains the
buffer and raises; otherwise the device is present unless the matched
start is immediately followed by the `b'NONE\r'` marker. -/
def has_thing (cmd expected_start : Bytes) (tr : Transport) :
    Except PyError Bool × Transport :=
  let r := get_description cmd tr
  if expected_start.isPrefixOf r.1 then
    (.ok (!(expected_start ++ bs "NONE\r").isPrefixOf r.1), r.2)
  else
    (.error (.descriptionFailed cmd r.1), read_until_timeout r.2)

/-- `assert_filterwheel_number(self, number)`: `assert number > 0 and number < 4`. -/
def assert_filterwheel_number (number : Int) : Except PyError Unit :=
  if 0 < number ∧ number < 4 then .ok () else .error .assertionFailed

/-- Python's `needle in hay` substring test on byte strings. -/
def pyInBytes (needle hay : Bytes) : Bool :=
  (List.range (hay.length + 1)).any (fun i => needle.isPrefixOf (hay.drop i))

/-- `assert_axis_name(self, name)`: `assert len(name) == 1 and name in 'SXYZA'`. -/
def assert_axis_name (name : String) : Except PyError Unit :=
  if name.length = 1 ∧ pyInBytes name.data (bs "SXYZA") = true then .ok ()
  else .error .assertionFailed

/-- `b'%d' % n`: decimal rendering of an integer, as produced by Python's
`%d` formatting (identical to Lean's `toString` on `Int`). -/
def intBytes (n : Int) : Bytes := (toString n).data

/-- Python `int()` applied to a device reply: strip surrounding ASCII
whitespace, then an optional sign followed by at least one digit.  (The
underscore digit grouping accepted by `int()` is never produced by the
device and is not modelled.) -/
def pySpace (c : Char) : Bool :=
  c = ' ' || c = '\t' || c = '\n' || c = '\r' || c = '\x0b' || c = '\x0c'

/-- Decimal value of a digit string. -/
def digitsVal (ds : Bytes) : Nat :=
  ds.foldl (fun n c => 10 * n + (c.toNat - 48)) 0

/-- Sign-and-digits part of Python `int()` (after whitespace stripping). -/
def pyIntCore (t : Bytes) : Option Int :=
  match t with
  | [] => none
  | '-' :: ds =>
    if ds ≠ [] ∧ ds.all Char.isDigit = true then some (-(digitsVal ds : Int))
    else none
  | '+' :: ds =>
    if ds ≠ [] ∧ ds.all Char.isDigit = true then some (digitsVal ds : Int)
    else none
  | ds =>
    if ds.all Char.isDigit = true then some (digitsVal ds : Int) else none

/-- Python `int()` on a reply: returns `none` where `int()` raises `ValueError`. -/
def pyInt (s : Bytes) : Option Int :=
  pyIntCore (((s.dropWhile pySpace).reverse.dropWhile pySpace).reverse)

/-- `get_n_filter_positions(self, number)`: assert the wheel number, then
`int(self.get_command(b'FPW %d' % number))`. -/
def get_n_filter_positions (number : Int) (tr : Transport) :
    Except PyError Int × Transport :=
  match assert_filterwheel_number number with
  | .error e => (.error e, tr)
  | .ok _ =>
    let r := get_command (bs "FPW " ++ intBytes number) tr
    match pyInt r.1 with
    | some n => (.ok n, r.2)
    | none => (.error (.parseFailed r.1), r.2)

/-- `get_filter_position(self, number)`: assert the wheel number, then
`int(self.get_command(b'7 %d F' % number))`. -/
def get_filter_position (number : Int) (tr : Transport) :
    Except PyError Int × Transport :=
  match assert_filterwheel_number number with
  | .error e => (.error e, tr)
  | .ok _ =>
    let r := get_command (bs "7 " ++ intBytes number ++ bs " F") tr
    match pyInt r.1 with
    | some n => (.ok n, r.2)
    | none => (.error (.parseFailed r.1), r.2)

/-- `set_filter_position(self, number, pos)`: assert the wheel number,
then `move_command(b'7 %d %d' % (number, pos))`. -/
def set_filter_position (number pos : Int) (tr : Transport) :
    Except PyError Unit × Transport :=
  match assert_filterwheel_number number with
  | .error e => (.error e, tr)
  | .ok _ => move_command (bs "7 " ++ intBytes number ++ bs " " ++ intBytes pos) tr

/-- `go_x(self, pos)`: `move_command(b'GX %d' % pos)`. -/
def go_x (pos : Int) (tr : Transport) : Except PyError Unit × Transport :=
  move_command (bs "GX " ++ intBytes pos) tr

/-- `go_y(self, pos)`: `move_command(b'GY %d' % pos)`. -/
def go_y (pos : Int) (tr : Transport) : Except PyError Unit × Transport :=
  move_command (bs "GY " ++ intBytes pos) tr

/-- `absolute_position(self)`: `[int(p) for p in self.get_command(b'P').split(b',')]`
followed by `assert len(positions) == 3`; `int()` raising on a piece
surfaces as `parseFailed` with the raw reply attached. -/
def absolute_position (tr : Transport) :
    Except PyError (Int × Int × Int) × Transport :=
  let r := get_command (bs "P") tr
  match (r.1.splitOn ',').mapM pyInt with
  | none => (.error (.parseFailed r.1), r.2)
  | some ps =>
    match ps with
    | [x, y, z] => (.ok (x, y, z), r.2)
    | _ => (.error .assertionFailed, r.2)

/-- `absolute_x_position(self)`: `int(self.get_command(b'PX'))`. -/
def absolute_x_position (tr : Transport) : Except PyError Int × Transport :=
  let r := get_command (bs "PX") tr
  match pyInt r.1 with
  | some n => (.ok n, r.2)
  | none => (.error (.parseFailed r.1), r.2)

/-- `_enable_command(self, command, axis, mode)`: assert the axis name,
then `set_command(b'%s %s %d' % (command, axis.encode(), mode))` (Python
renders `True` as `1` and `False` as `0` under `%d`). -/
def enable_command (cmd : Bytes) (axis : String) (mode : Bool) (tr : Transport) :
    Except PyError Unit × Transport :=
  match assert_axis_name axis with
  | .error e => (.error e, tr)
  | .ok _ =>
    set_command (cmd ++ bs " " ++ axis.data ++ bs " "
      ++ (if mode then bs "1" else bs "0")) tr

/-- `enable_encoder(self, axis, mode)`. -/
def enable_encoder (axis : String) (mode : Bool) (tr : Transport) :
    Except PyError Unit × Transport :=
  enable_command (bs "ENCODER") axis mode tr

/-- `enable_servo(self, axis, mode)`. -/
def enable_servo (axis : String) (mode : Bool) (tr : Transport) :
    Except PyError Unit × Transport :=
  enable_command (bs "SERVO") axis mode tr

/-- `_ProScanIIIConnection.__init__` (after opening the serial port):
send `b'?'`, read one line; on any answer other than
`b'PROSCAN INFORMATION\r'` drain the buffer and raise the identification
error; otherwise read until `b'\rEND\r'` and raise if the block does not
end with that marker. -/
def connection_init (port : String) (tr : Transport) :
    Except PyError Unit × Transport :=
  let r := readline (command (bs "?") tr)
  if r.1 = bs "PROSCAN INFORMATION\r" then
    let r2 := serialReadUntil (bs "\rEND\r") r.2
    if (bs "\rEND\r").isSuffixOf r2.1 then (.ok (), r2.2)
    else (.error .endNotFound, r2.2)
  else
    (.error (.identFailed port r.1), read_until_timeout r.2)

/-- `_ProScanIIIStageAxis.__init__(connection, name)`: reject any name
other than `'X'` or `'Y'` with `ValueError` before touching the
connection; then `enable_encoder(name, True)` and `enable_servo(name,
False)` (a protocol failure in the first call propagates and the second
is never issued). -/
def stageAxis_init (name : String) (tr : Transport) :
    Except PyError Unit × Transport :=
  if name ≠ "X" ∧ name ≠ "Y" then
    (.error (.valueError "name must be X or Y"), tr)
  else
    let r1 := enable_encoder name true tr
    match r1.1 with
    | .error e => (.error e, r1.2)
    | .ok _ => enable_servo name false r1.2

/-- `_ProScanIIIStageAxis.move_to(pos)`: truncate the float position to
an integer and dispatch to `go_x` / `go_y` according to the axis name. -/
def pyTrunc (q : ℚ) : Int := q.num.tdiv (q.den : Int)

/-- `move_to` of the stage-axis adapter. -/
def stageAxis_move_to (name : String) (pos : ℚ) (tr : Transport) :
    Except PyError Unit × Transport :=
  if name = "X" then go_x (pyTrunc pos) tr
  else if name = "Y" then go_y (pyTrunc pos) tr
  else (.error (.runtimeError "we should never have got here"), tr)

/-- `_ProScanIIIFilterWheel.__init__(connection, number)`: the stored
position count is `get_n_filter_positions(number)`, whose wheel-number
assertion runs before any exchange with the device. -/
def filterWheel_init (number : Int) (tr : Transport) :
    Except PyError Int × Transport :=
  get_n_filter_positions number tr

/-- Input bytes all arriving at time `d`. -/
def arrivingAt (b : Bytes) (d : Nat) : List (Nat × Char) :=
  b.map (fun c => (d, c))


/-! ### Shared bookkeeping lemmas -/

/-- A get exchange appends exactly one frame, `cmd + '\r'`, to the write log. -/
theorem get_command_written (cmd : Bytes) (tr : Transport) :
    (get_command cmd tr).2.written = tr.written ++ [cmd ++ bs "\r"] := rfl

/-- A get exchange leaves the configured timeout unchanged. -/
theorem get_command_timeout (cmd : Bytes) (tr : Transport) :
    (get_command cmd tr).2.timeout = tr.timeout := rfl

/-- Draining touches only the input buffer. -/
theorem read_until_timeout_written (tr : Transport) :
    (read_until_timeout tr).written = tr.written := rfl

/-- The two possible outcomes of `_command_and_validate`: on the expected
reply, success with the post-exchange transport; on any other reply, the
`RuntimeError` carrying the command and the reply, with the buffer drained. -/
theorem command_and_validate_cases (cmd expected : Bytes) (tr : Transport) :
    (command_and_validate cmd expected tr
        = (.ok (), (get_command cmd tr).2)
      ∧ (get_command cmd tr).1 = expected)
    ∨ (command_and_validate cmd expected tr
        = (.error (.commandFailed cmd (get_command cmd tr).1),
           read_until_timeout (get_command cmd tr).2)
      ∧ (get_command cmd tr).1 ≠ expected) := by
  by_cases h : (get_command cmd tr).1 = expected
  · exact Or.inl ⟨by simp [command_and_validate, h], h⟩
  · exact Or.inr ⟨by simp [command_and_validate, h], h⟩

/-! ### Claim theorems -/

/-- C1: `set_command(cmd)` succeeds exactly when the reply to `cmd` equals
the two-byte acknowledgement `"0\r"`; on any other reply it drains the
input buffer (read-until-timeout) and raises the error carrying the
offending command and the actual reply; and it writes the command frame
exactly once (never re-sends). -/
theorem set_command_ack_protocol (cmd : Bytes) (tr : Transport) :
    ((set_command cmd tr).1 = .ok () ↔ (get_command cmd tr).1 = bs "0\r")
    ∧ ((get_command cmd tr).1 ≠ bs "0\r" →
        (set_command cmd tr).1
            = .error (.commandFailed cmd (get_command cmd tr).1)
          ∧ (set_command cmd tr).2.input = [])
    ∧ (set_command cmd tr).2.written = tr.written ++ [cmd ++ bs "\r"] := by
  rcases command_and_validate_cases cmd (bs "0\r") tr with ⟨heq, h⟩ | ⟨heq, h⟩ <;>
    simp [set_command, heq, h, read_until_timeout, get_command_written]

/-- Witness for C1 at a concrete exchange: the reply `"1\r"` (the device's
error code) is not the acknowledgement, so the command fails with the
diagnostic error and the buffer ends up drained, while the frame
`"SERVO X 0\r"` was written exactly once. -/
theorem set_command_ack_protocol_witness :
    ((set_command (bs "SERVO X 0") ⟨5, arrivingAt (bs "1\r") 0, []⟩).1
        = .error (.commandFailed (bs "SERVO X 0") (bs "1\r"))
      ∧ (set_command (bs "SERVO X 0") ⟨5, arrivingAt (bs "1\r") 0, []⟩).2.input = [])
    ∧ (set_command (bs "SERVO X 0") ⟨5, arrivingAt (bs "1\r") 0, []⟩).2.written
        = [bs "SERVO X 0\r"] :=
  ⟨(set_command_ack_protocol (bs "SERVO X 0") ⟨5, arrivingAt (bs "1\r") 0, []⟩).2.1
      (by decide),
   (set_command_ack_protocol (bs "SERVO X 0") ⟨5, arrivingAt (bs "1\r") 0, []⟩).2.2⟩

/-- C3: `changed_timeout(new_timeout)` restores the transport's previous
timeout value once the scope exits, whatever the body did and whatever
result (including an `Except` recording an exception) it produced. -/
theorem changed_timeout_restores {α : Type} (new : Nat)
    (body : Transport → α × Transport) (tr : Transport) :
    ((changed_timeout new body tr).2).timeout = tr.timeout := rfl

/-- A reply frame `"R\r"` whose bytes arrive at time `d` is read in full
when `d` is within the read timeout `t`. -/
theorem readUntilAux_delayed_ok (t d : Nat) (hd : d ≤ t) :
    readUntilAux (bs "\r") t (arrivingAt (bs "R\r") d) [] = (bs "R\r", []) := by
  have h0 : arrivingAt (bs "R\r") d = [(d, 'R'), (d, '\r')] := rfl
  have hs1 : (bs "\r").isSuffixOf ([] : Bytes) = false := rfl
  have hs2 : (bs "\r").isSuffixOf (['R'] : Bytes) = false := rfl
  have hs3 : (bs "\r").isSuffixOf (['R', '\r'] : Bytes) = true := rfl
  rw [h0]
  simp [readUntilAux, hd, hs1, hs2, hs3]
  rfl

/-- A reply frame `"R\r"` whose bytes arrive at time `d` later than the
read timeout `t` is not read at all: the read returns empty. -/
theorem readUntilAux_delayed_late (t d : Nat) (hd : ¬ d ≤ t) :
    readUntilAux (bs "\r") t (arrivingAt (bs "R\r") d) []
      = ([], [(d, 'R'), (d, '\r')]) := by
  have h0 : arrivingAt (bs "R\r") d = [(d, 'R'), (d, '\r')] := rfl
  have hs1 : (bs "\r").isSuffixOf ([] : Bytes) = false := rfl
  rw [h0]
  simp [readUntilAux, hd, hs1]

/-- The answer of the exchange inside `move_command` is read under the
scoped timeout `10 * tr.timeout`. -/
theorem move_command_answer_eq (cmd : Bytes) (tr : Transport) :
    (get_command cmd { tr with timeout := 10 * tr.timeout }).1
      = (readUntilAux (bs "\r") (10 * tr.timeout) tr.input []).1 := rfl

/-- `move_command` succeeds exactly when the reply, read under the scoped
timeout `10 * tr.timeout`, is the end-of-move acknowledgement `"R\r"`. -/
theorem move_command_ok_iff (cmd : Bytes) (tr : Transport) :
    (move_command cmd tr).1 = .ok ()
      ↔ (readUntilAux (bs "\r") (10 * tr.timeout) tr.input []).1 = bs "R\r" := by
  rcases command_and_validate_cases cmd (bs "R\r") { tr with timeout := 10 * tr.timeout }
    with ⟨heq, h⟩ | ⟨heq, h⟩ <;> rw [move_command_answer_eq] at h <;>
    simp [move_command, changed_timeout, heq, h]

/-- C2: `move_command(cmd)` performs its write-then-read exchange under a
read timeout of `10 *` the configured default and succeeds exactly when
the reply read under that scoped timeout is `"R\r"`; any other reply is
handled by drain-then-raise; the default timeout is restored afterwards;
and an `"R\r"` reply arriving at time `d` succeeds precisely when `d` is
within `10 *` the default timeout. -/
theorem move_command_scoped_timeout (cmd : Bytes) (tr : Transport) :
    ((move_command cmd tr).1 = .ok ()
        ↔ (readUntilAux (bs "\r") (10 * tr.timeout) tr.input []).1 = bs "R\r")
    ∧ ((readUntilAux (bs "\r") (10 * tr.timeout) tr.input []).1 ≠ bs "R\r" →
        (move_command cmd tr).1
            = .error (.commandFailed cmd
                (readUntilAux (bs "\r") (10 * tr.timeout) tr.input []).1)
          ∧ (move_command cmd tr).2.input = [])
    ∧ (move_command cmd tr).2.timeout = tr.timeout
    ∧ (∀ t0 d : Nat,
        ((move_command cmd ⟨t0, arrivingAt (bs "R\r") d, []⟩).1 = .ok ()
          ↔ d ≤ 10 * t0)) := by
  refine ⟨move_command_ok_iff cmd tr, ?_, rfl, ?_⟩
  · intro h
    rcases command_and_validate_cases cmd (bs "R\r") { tr with timeout := 10 * tr.timeout }
      with ⟨heq, h2⟩ | ⟨heq, h2⟩ <;> rw [move_command_answer_eq] at h2
    · exact absurd h2 h
    · simp [move_command, changed_timeout, heq, read_until_timeout,
        move_command_answer_eq]
  · intro t0 d
    rw [move_command_ok_iff]
    by_cases hd : d ≤ 10 * t0
    · simp [show (10 * (⟨t0, arrivingAt (bs "R\r") d, []⟩ : Transport).timeout) = 10 * t0 from rfl,
        readUntilAux_delayed_ok (10 * t0) d hd, hd]
    · simp [readUntilAux_delayed_late (10 * t0) d hd, hd,
        show (([] : Bytes) = bs "R\r") = False from by simp [bs]]

/-- Witness for C2: with default timeout 1, an `"R\r"` reply arriving at
time 10 (within `10 × 1`) succeeds; a `"0\r"` reply read in time is a
protocol failure handled by drain-then-raise. -/
theorem move_command_scoped_timeout_witness :
    ((move_command (bs "GX 100") ⟨1, arrivingAt (bs "R\r") 10, []⟩).1 = .ok ()
      ↔ (10 : Nat) ≤ 10 * 1)
    ∧ ((move_command (bs "GX 100") ⟨1, arrivingAt (bs "0\r") 0, []⟩).1
          = .error (.commandFailed (bs "GX 100") (bs "0\r"))
        ∧ (move_command (bs "GX 100") ⟨1, arrivingAt (bs "0\r") 0, []⟩).2.input = []) :=
  ⟨(move_command_scoped_timeout (bs "GX 100")
      ⟨1, arrivingAt (bs "R\r") 10, []⟩).2.2.2 1 10,
   (move_command_scoped_timeout (bs "GX 100")
      ⟨1, arrivingAt (bs "0\r") 0, []⟩).2.1 (by decide)⟩

/-- Boolean prefix test is monotone: a prefix of a prefix is a prefix. -/
theorem isPrefixOf_mono {p q d : Bytes} (hq : q <+: p)
    (h : p.isPrefixOf d = true) : q.isPrefixOf d = true := by
  rw [List.isPrefixOf_iff_prefix] at h ⊢
  exact hq.trans h

/-- The probed start followed by `"NONE"` is an initial segment of the
start followed by the full `"NONE\r"` marker line. -/
theorem none_marker_extends (es : Bytes) :
    (es ++ bs "NONE") <+: (es ++ bs "NONE\r") := by
  have h : bs "NONE\r" = bs "NONE" ++ bs "\r" := rfl
  rw [h, ← List.append_assoc]
  exact List.prefix_append _ _

/-- C4: `has_thing(cmd, expected_start)` returns `false` without raising
(and without draining) when the description reply starts with the
expected start immediately followed by the `"NONE\r"` marker; returns
`true` when it starts with the expected start not followed by `"NONE"`;
and when the reply does not start with the expected start at all it
drains the input buffer and raises the description error — absence is
never inferred from a prefix mismatch. -/
theorem has_thing_protocol (cmd es : Bytes) (tr : Transport) :
    ((es ++ bs "NONE\r").isPrefixOf (get_description cmd tr).1 = true →
        has_thing cmd es tr = (.ok false, (get_description cmd tr).2))
    ∧ (es.isPrefixOf (get_description cmd tr).1 = true ∧
        (es ++ bs "NONE").isPrefixOf (get_description cmd tr).1 = false →
        has_thing cmd es tr = (.ok true, (get_description cmd tr).2))
    ∧ (es.isPrefixOf (get_description cmd tr).1 = false →
        has_thing cmd es tr
          = (.error (.descriptionFailed cmd (get_description cmd tr).1),
             read_until_timeout (get_description cmd tr).2)) := by
  refine ⟨?_, ?_, ?_⟩
  · intro h
    have hes : es.isPrefixOf (get_description cmd tr).1 = true :=
      isPrefixOf_mono (List.prefix_append es (bs "NONE\r")) h
    simp [has_thing, hes, h]
  · rintro ⟨hes, hnone⟩
    have hfull : (es ++ bs "NONE\r").isPrefixOf (get_description cmd tr).1 = false := by
      cases hfc : (es ++ bs "NONE\r").isPrefixOf (get_description cmd tr).1 with
      | false => rfl
      | true =>
        exact absurd (isPrefixOf_mono (none_marker_extends es) hfc)
          (by simp [hnone])
    simp [has_thing, hes, hfull]
  · intro h
    simp [has_thing, h]

/-- Witness for C4 at three concrete probes: a `"NONE\r"`-marked reply
reports absence without error, a populated reply reports presence, and a
mismatched reply raises and drains. -/
theorem has_thing_protocol_witness :
    has_thing (bs "FILTER 3") (bs "FILTER_3 = ")
        ⟨5, arrivingAt (bs "FILTER_3 = NONE\rEND\r") 0, []⟩
      = (.ok false, ⟨5, [], [bs "FILTER 3\r"]⟩)
    ∧ has_thing (bs "FILTER 1") (bs "FILTER_1 = ")
        ⟨5, arrivingAt (bs "FILTER_1 = 8 BAND\rEND\r") 0, []⟩
      = (.ok true, ⟨5, [], [bs "FILTER 1\r"]⟩)
    ∧ has_thing (bs "STAGE") (bs "STAGE = ")
        ⟨5, arrivingAt (bs "GARBAGE\rEND\r") 0, []⟩
      = (.error (.descriptionFailed (bs "STAGE") (bs "GARBAGE\rEND\r")),
         ⟨5, [], [bs "STAGE\r"]⟩) :=
  ⟨(has_thing_protocol (bs "FILTER 3") (bs "FILTER_3 = ")
      ⟨5, arrivingAt (bs "FILTER_3 = NONE\rEND\r") 0, []⟩).1 (by decide),
   (has_thing_protocol (bs "FILTER 1") (bs "FILTER_1 = ")
      ⟨5, arrivingAt (bs "FILTER_1 = 8 BAND\rEND\r") 0, []⟩).2.1 (by decide),
   (has_thing_protocol (bs "STAGE") (bs "STAGE = ")
      ⟨5, arrivingAt (bs "GARBAGE\rEND\r") 0, []⟩).2.2 (by decide)⟩

/-- A `read_until` call stops only for one of three reasons: the
accumulated bytes end with the terminator, the input is exhausted, or the
next pending byte arrives later than the read timeout. -/
theorem readUntilAux_stops (term : Bytes) (t : Nat) (input : List (Nat × Char))
    (acc : Bytes) :
    term.isSuffixOf (readUntilAux term t input acc).1 = true
    ∨ (readUntilAux term t input acc).2 = []
    ∨ ∃ d c rest, (readUntilAux term t input acc).2 = (d, c) :: rest ∧ ¬ d ≤ t := by
  induction input generalizing acc with
  | nil =>
    by_cases h : term.isSuffixOf acc <;> simp [readUntilAux, h]
  | cons hd tl ih =>
    by_cases h : term.isSuffixOf acc
    · simp [readUntilAux, h]
    · obtain ⟨d, c⟩ := hd
      by_cases hdt : d ≤ t
      · simpa [readUntilAux, h, hdt] using ih (acc ++ [c])
      · refine Or.inr (Or.inr ⟨d, c, tl, ?_, hdt⟩)
        simp [readUntilAux, h, hdt]

/-- C5 (amended): `get_description(cmd)` writes the command once and
performs a single read-until-`"\rEND\r"`: when the read stopped it either
saw the complete block (result ends with `"\rEND\r"`), or it stopped on
timeout / end of input — in which case the (possibly truncated) bytes are
returned to the caller without any error being raised. -/
theorem get_description_single_read (cmd : Bytes) (tr : Transport) :
    (get_description cmd tr).2.written = tr.written ++ [cmd ++ bs "\r"]
    ∧ ((bs "\rEND\r").isSuffixOf (get_description cmd tr).1 = true
        ∨ (get_description cmd tr).2.input = []
        ∨ ∃ d c rest, (get_description cmd tr).2.input = (d, c) :: rest
            ∧ ¬ d ≤ tr.timeout) := by
  refine ⟨rfl, ?_⟩
  have h := readUntilAux_stops (bs "\rEND\r") tr.timeout tr.input []
  have h1 : (get_description cmd tr).1
      = (readUntilAux (bs "\rEND\r") tr.timeout tr.input []).1 := rfl
  have h2 : (get_description cmd tr).2.input
      = (readUntilAux (bs "\rEND\r") tr.timeout tr.input []).2 := rfl
  rw [h1, h2]
  exact h

/-- C5 counterexample: when the end-of-block marker never appears before
the read times out, `get_description` does not fail — it returns the
truncated block to the caller as if it were complete (in the source,
`get_description` is a single `read_until` with no terminator check and
no error path, so the truncated bytes are handed back silently). -/
theorem get_description_truncation_counterexample :
    (get_description (bs "STAGE") ⟨5, arrivingAt (bs "STAGE = XY\r") 0, []⟩).1
      = bs "STAGE = XY\r"
    ∧ (bs "\rEND\r").isSuffixOf (bs "STAGE = XY\r") = false := by
  constructor <;> decide

/-- A set exchange results either in success or in the drain-and-raise
protocol error carrying the command and the actual reply. -/
theorem set_command_ok_or_commandFailed (cmd : Bytes) (tr : Transport) :
    (set_command cmd tr).1 = .ok ()
    ∨ (set_command cmd tr).1 = .error (.commandFailed cmd (get_command cmd tr).1) := by
  rcases command_and_validate_cases cmd (bs "0\r") tr with ⟨heq, _⟩ | ⟨heq, _⟩ <;>
    simp [set_command, heq]

/-- A set exchange appends exactly one frame to the write log, whether it
succeeds or fails. -/
theorem set_command_written (cmd : Bytes) (tr : Transport) :
    (set_command cmd tr).2.written = tr.written ++ [cmd ++ bs "\r"] := by
  rcases command_and_validate_cases cmd (bs "0\r") tr with ⟨heq, _⟩ | ⟨heq, _⟩ <;>
    simp [set_command, heq, read_until_timeout, get_command_written]

/-- For a valid axis name, axis-adapter construction either succeeds or
fails with a protocol (`commandFailed`) error from one of its two set
exchanges — never with the construction-time validation errors. -/
theorem stageAxis_init_result_valid (name : String) (tr : Transport)
    (h : name = "X" ∨ name = "Y") :
    (stageAxis_init name tr).1 = .ok ()
    ∨ ∃ c a, (stageAxis_init name tr).1 = .error (.commandFailed c a) := by
  rcases h with h | h <;> subst h
  · have henc : enable_encoder "X" true tr = set_command (bs "ENCODER X 1") tr := rfl
    rcases set_command_ok_or_commandFailed (bs "ENCODER X 1") tr with h1 | h1
    · have hsrv : enable_servo "X" false (set_command (bs "ENCODER X 1") tr).2
          = set_command (bs "SERVO X 0") (set_command (bs "ENCODER X 1") tr).2 := rfl
      rcases set_command_ok_or_commandFailed (bs "SERVO X 0")
          (set_command (bs "ENCODER X 1") tr).2 with h2 | h2
      · exact Or.inl (by simp [stageAxis_init, henc, h1, hsrv, h2])
      · exact Or.inr ⟨bs "SERVO X 0",
          (get_command (bs "SERVO X 0") (set_command (bs "ENCODER X 1") tr).2).1,
          by simp [stageAxis_init, henc, h1, hsrv, h2]⟩
    · exact Or.inr ⟨bs "ENCODER X 1", (get_command (bs "ENCODER X 1") tr).1,
          by simp [stageAxis_init, henc, h1]⟩
  · have henc : enable_encoder "Y" true tr = set_command (bs "ENCODER Y 1") tr := rfl
    rcases set_command_ok_or_commandFailed (bs "ENCODER Y 1") tr with h1 | h1
    · have hsrv : enable_servo "Y" false (set_command (bs "ENCODER Y 1") tr).2
          = set_command (bs "SERVO Y 0") (set_command (bs "ENCODER Y 1") tr).2 := rfl
      rcases set_command_ok_or_commandFailed (bs "SERVO Y 0")
          (set_command (bs "ENCODER Y 1") tr).2 with h2 | h2
      · exact Or.inl (by simp [stageAxis_init, henc, h1, hsrv, h2])
      · exact Or.inr ⟨bs "SERVO Y 0",
          (get_command (bs "SERVO Y 0") (set_command (bs "ENCODER Y 1") tr).2).1,
          by simp [stageAxis_init, henc, h1, hsrv, h2]⟩
    · exact Or.inr ⟨bs "ENCODER Y 1", (get_command (bs "ENCODER Y 1") tr).1,
          by simp [stageAxis_init, henc, h1]⟩

/-- For a valid wheel number, filter-wheel construction passes the number
assertion: it either succeeds or fails parsing the position-count reply. -/
theorem filterWheel_init_result_valid (number : Int) (tr : Transport)
    (h : 0 < number ∧ number < 4) :
    (∃ n, (filterWheel_init number tr).1 = .ok n)
    ∨ (filterWheel_init number tr).1
        = .error (.parseFailed (get_command (bs "FPW " ++ intBytes number) tr).1) := by
  obtain ⟨h1, h2⟩ := h
  cases hp : pyInt (get_command (bs "FPW " ++ intBytes number) tr).1 with
  | none =>
    exact Or.inr (by
      simp [filterWheel_init, get_n_filter_positions, assert_filterwheel_number,
        h1, h2, hp])
  | some n =>
    exact Or.inl ⟨n, by
      simp [filterWheel_init, get_n_filter_positions, assert_filterwheel_number,
        h1, h2, hp]⟩

/-- C6: axis-adapter construction with a name outside X, Y and
filter-wheel construction with a number outside 1..3 fail at construction
time, before any exchange with the device (the transport is returned
untouched); valid names and numbers pass this validation — any remaining
construction failure is a protocol or parse error, never the
construction-time validation error. -/
theorem adapter_construction_validation (name : String) (number : Int)
    (tr : Transport) :
    (name ≠ "X" ∧ name ≠ "Y" →
        stageAxis_init name tr = (.error (.valueError "name must be X or Y"), tr))
    ∧ ((name = "X" ∨ name = "Y") →
        (∀ msg, (stageAxis_init name tr).1 ≠ .error (.valueError msg))
        ∧ (stageAxis_init name tr).1 ≠ .error .assertionFailed)
    ∧ (¬ (0 < number ∧ number < 4) →
        filterWheel_init number tr = (.error .assertionFailed, tr))
    ∧ (0 < number ∧ number < 4 →
        (filterWheel_init number tr).1 ≠ .error .assertionFailed
        ∧ (∀ msg, (filterWheel_init number tr).1 ≠ .error (.valueError msg))) := by
  refine ⟨?_, ?_, ?_, ?_⟩
  · intro h
    obtain ⟨h1, h2⟩ := h
    simp [stageAxis_init, h1, h2]
  · intro h
    rcases stageAxis_init_result_valid name tr h with h1 | ⟨c, a, h1⟩ <;> simp [h1]
  · intro h
    simp [filterWheel_init, get_n_filter_positions, assert_filterwheel_number, h]
  · intro h
    rcases filterWheel_init_result_valid number tr h with ⟨n, h1⟩ | h1 <;> simp [h1]

/-- Witness for C6: name Q and wheel 0 are rejected at construction with
the transport untouched; name X and wheel 2 pass the validation. -/
theorem adapter_construction_validation_witness :
    stageAxis_init "Q" ⟨5, [], []⟩
      = (.error (.valueError "name must be X or Y"), ⟨5, [], []⟩)
    ∧ (stageAxis_init "X" ⟨5, [], []⟩).1 ≠ .error .assertionFailed
    ∧ filterWheel_init 0 ⟨5, [], []⟩ = (.error .assertionFailed, ⟨5, [], []⟩)
    ∧ (filterWheel_init 2 ⟨5, [], []⟩).1 ≠ .error .assertionFailed :=
  ⟨(adapter_construction_validation "Q" 0 ⟨5, [], []⟩).1 (by decide),
   ((adapter_construction_validation "X" 0 ⟨5, [], []⟩).2.1 (Or.inl rfl)).2,
   (adapter_construction_validation "Q" 0 ⟨5, [], []⟩).2.2.1 (by decide),
   ((adapter_construction_validation "X" 2 ⟨5, [], []⟩).2.2.2 (by decide)).1⟩

/-- C7: connection construction sends the identification command `"?"`
and succeeds exactly when the first reply line equals
`"PROSCAN INFORMATION\r"` and the following description block ends in
`"\rEND\r"`; on any other first reply (garbage or empty) the buffer is
drained and construction fails with the identification error. -/
theorem connection_init_handshake (port : String) (tr : Transport) :
    ((connection_init port tr).1 = .ok ()
        ↔ (readline (command (bs "?") tr)).1 = bs "PROSCAN INFORMATION\r"
          ∧ (bs "\rEND\r").isSuffixOf
              (serialReadUntil (bs "\rEND\r") (readline (command (bs "?") tr)).2).1
              = true)
    ∧ ((readline (command (bs "?") tr)).1 ≠ bs "PROSCAN INFORMATION\r" →
        (connection_init port tr).1
            = .error (.identFailed port (readline (command (bs "?") tr)).1)
          ∧ (connection_init port tr).2.input = []) := by
  by_cases h : (readline (command (bs "?") tr)).1 = bs "PROSCAN INFORMATION\r"
  · by_cases h2 : (bs "\rEND\r").isSuffixOf
        (serialReadUntil (bs "\rEND\r") (readline (command (bs "?") tr)).2).1 <;>
      simp [connection_init, h, h2, read_until_timeout]
  · simp [connection_init, h, read_until_timeout]

/-- Witness for C7: the nominal handshake succeeds; a `"GARBAGE\r"` first
reply and an empty (device off) reply both fail with the identification
error, the former with the buffer drained. -/
theorem connection_init_handshake_witness :
    (connection_init "port0"
        ⟨5, arrivingAt (bs "PROSCAN INFORMATION\rSTAGE = H101A\rEND\r") 0, []⟩).1
      = .ok ()
    ∧ (connection_init "port0" ⟨5, arrivingAt (bs "GARBAGE\r") 0, []⟩).1
        = .error (.identFailed "port0" (bs "GARBAGE\r"))
    ∧ (connection_init "port0" ⟨5, arrivingAt (bs "GARBAGE\r") 0, []⟩).2.input = []
    ∧ (connection_init "port0" ⟨5, [], []⟩).1
        = .error (.identFailed "port0" []) :=
  ⟨(connection_init_handshake "port0"
      ⟨5, arrivingAt (bs "PROSCAN INFORMATION\rSTAGE = H101A\rEND\r") 0, []⟩).1.2
      (by constructor <;> decide),
   ((connection_init_handshake "port0"
      ⟨5, arrivingAt (bs "GARBAGE\r") 0, []⟩).2 (by decide)).1,
   ((connection_init_handshake "port0"
      ⟨5, arrivingAt (bs "GARBAGE\r") 0, []⟩).2 (by decide)).2,
   ((connection_init_handshake "port0" ⟨5, [], []⟩).2 (by decide)).1⟩

/-- On any reply other than the end-of-move acknowledgement,
`move_command` raises the drain-and-report protocol error. -/
theorem move_command_fail (cmd : Bytes) (tr : Transport)
    (h : (readUntilAux (bs "\r") (10 * tr.timeout) tr.input []).1 ≠ bs "R\r") :
    (move_command cmd tr).1
        = .error (.commandFailed cmd
            (readUntilAux (bs "\r") (10 * tr.timeout) tr.input []).1)
    ∧ (move_command cmd tr).2.input = [] := by
  rcases command_and_validate_cases cmd (bs "R\r") { tr with timeout := 10 * tr.timeout }
    with ⟨heq, h2⟩ | ⟨heq, h2⟩ <;> rw [move_command_answer_eq] at h2
  · exact absurd h2 h
  · simp [move_command, changed_timeout, heq, read_until_timeout,
      move_command_answer_eq]

/-- A move exchange appends exactly one frame to the write log, whether
it succeeds or fails. -/
theorem move_command_written (cmd : Bytes) (tr : Transport) :
    (move_command cmd tr).2.written = tr.written ++ [cmd ++ bs "\r"] := by
  rcases command_and_validate_cases cmd (bs "R\r") { tr with timeout := 10 * tr.timeout }
    with ⟨heq, _⟩ | ⟨heq, _⟩ <;>
    simp [move_command, changed_timeout, heq, read_until_timeout, get_command_written]

/-- C8: `move_to(p)` on the X axis writes exactly one frame, `"GX "`
followed by the integer truncation of `p` and the `"\r"` terminator; the
operation succeeds exactly on the reply `"R\r"` (read under the move
timeout), and receiving `"0\r"` instead raises the protocol error. -/
theorem move_to_x_frame_and_ack (p : ℚ) (tr : Transport) :
    (stageAxis_move_to "X" p tr).2.written
        = tr.written ++ [bs "GX " ++ intBytes (pyTrunc p) ++ bs "\r"]
    ∧ ((stageAxis_move_to "X" p tr).1 = .ok ()
        ↔ (readUntilAux (bs "\r") (10 * tr.timeout) tr.input []).1 = bs "R\r")
    ∧ ((readUntilAux (bs "\r") (10 * tr.timeout) tr.input []).1 = bs "0\r" →
        (stageAxis_move_to "X" p tr).1
          = .error (.commandFailed (bs "GX " ++ intBytes (pyTrunc p)) (bs "0\r"))) := by
  have hmv : stageAxis_move_to "X" p tr
      = move_command (bs "GX " ++ intBytes (pyTrunc p)) tr := rfl
  refine ⟨?_, ?_, ?_⟩
  · rw [hmv, move_command_written]
  · rw [hmv]
    exact move_command_ok_iff _ tr
  · intro h
    have hne : (readUntilAux (bs "\r") (10 * tr.timeout) tr.input []).1 ≠ bs "R\r" := by
      rw [h]; decide
    have hf := (move_command_fail (bs "GX " ++ intBytes (pyTrunc p)) tr hne).1
    rw [hmv, hf, h]

/-- Witness for C8: `move_to(1000)` on X sends `"GX 1000\r"`, and a
`"0\r"` reply is rejected with the protocol error. -/
theorem move_to_x_frame_and_ack_witness :
    (stageAxis_move_to "X" 1000 ⟨1, arrivingAt (bs "0\r") 0, []⟩).2.written
      = [bs "GX 1000\r"]
    ∧ (stageAxis_move_to "X" 1000 ⟨1, arrivingAt (bs "0\r") 0, []⟩).1
        = .error (.commandFailed (bs "GX 1000") (bs "0\r")) :=
  ⟨(move_to_x_frame_and_ack 1000 ⟨1, arrivingAt (bs "0\r") 0, []⟩).1,
   (move_to_x_frame_and_ack 1000 ⟨1, arrivingAt (bs "0\r") 0, []⟩).2.2 (by decide)⟩

/-- C9: for the get-type queries (filter position, filter-position
count, axis position, absolute (x,y,z) position), a reply that does not
parse as the expected integers raises the parse error to the caller with
the transport left exactly as the exchange left it — in particular the
input buffer is not drained (compare the drain in the set/move and
`has_thing` mismatch cases). -/
theorem get_parse_failure_no_drain (number : Int) (tr : Transport)
    (hn : 0 < number ∧ number < 4) :
    (pyInt (get_command (bs "7 " ++ intBytes number ++ bs " F") tr).1 = none →
        get_filter_position number tr
          = (.error (.parseFailed
                (get_command (bs "7 " ++ intBytes number ++ bs " F") tr).1),
             (get_command (bs "7 " ++ intBytes number ++ bs " F") tr).2))
    ∧ (pyInt (get_command (bs "FPW " ++ intBytes number) tr).1 = none →
        get_n_filter_positions number tr
          = (.error (.parseFailed (get_command (bs "FPW " ++ intBytes number) tr).1),
             (get_command (bs "FPW " ++ intBytes number) tr).2))
    ∧ (pyInt (get_command (bs "PX") tr).1 = none →
        absolute_x_position tr
          = (.error (.parseFailed (get_command (bs "PX") tr).1),
             (get_command (bs "PX") tr).2))
    ∧ (((get_command (bs "P") tr).1.splitOn ',').mapM pyInt = none →
        absolute_position tr
          = (.error (.parseFailed (get_command (bs "P") tr).1),
             (get_command (bs "P") tr).2)) := by
  obtain ⟨h1, h2⟩ := hn
  refine ⟨?_, ?_, ?_, ?_⟩
  · intro h
    simp only [get_filter_position, assert_filterwheel_number, h1, h2,
      and_self, if_true]
    rw [h]
  · intro h
    simp only [get_n_filter_positions, assert_filterwheel_number, h1, h2,
      and_self, if_true]
    rw [h]
  · intro h
    simp only [absolute_x_position]
    rw [h]
  · intro h
    simp only [absolute_position]
    rw [h]

/-- Witness for C9: unparsable replies to the filter-position and
absolute-position queries raise the parse error while the bytes still
pending after the reply line stay in the buffer (no drain). -/
theorem get_parse_failure_no_drain_witness :
    get_filter_position 1 ⟨5, arrivingAt (bs "junk\rrest\r") 0, []⟩
      = (.error (.parseFailed (bs "junk\r")),
         ⟨5, arrivingAt (bs "rest\r") 0, [bs "7 1 F\r"]⟩)
    ∧ arrivingAt (bs "rest\r") 0 ≠ []
    ∧ absolute_position ⟨5, arrivingAt (bs "1,2,junk\rtail\r") 0, []⟩
        = (.error (.parseFailed (bs "1,2,junk\r")),
           ⟨5, arrivingAt (bs "tail\r") 0, [bs "P\r"]⟩)
    ∧ arrivingAt (bs "tail\r") 0 ≠ [] :=
  ⟨(get_parse_failure_no_drain 1 ⟨5, arrivingAt (bs "junk\rrest\r") 0, []⟩
      (by decide)).1 (by decide),
   by decide,
   (get_parse_failure_no_drain 1 ⟨5, arrivingAt (bs "1,2,junk\rtail\r") 0, []⟩
      (by decide)).2.2.2 (by decide),
   by decide⟩

/-- C10: construction of an axis adapter with a valid name performs two
set exchanges on the shared connection as a side effect, in order: it
writes `"ENCODER <name> 1\r"` (enable encoder) and — if that exchange
succeeds — `"SERVO <name> 0\r"` (disable servo), before any client
operation can run; the encoder frame is written first in every case. -/
theorem stageAxis_init_enables (name : String) (tr : Transport)
    (h : name = "X" ∨ name = "Y") :
    ((enable_encoder name true tr).1 = .ok () →
      (stageAxis_init name tr).2.written
        = tr.written ++ [bs "ENCODER " ++ name.data ++ bs " 1\r",
                         bs "SERVO " ++ name.data ++ bs " 0\r"])
    ∧ (tr.written ++ [bs "ENCODER " ++ name.data ++ bs " 1\r"]).isPrefixOf
        (stageAxis_init name tr).2.written = true := by
  rcases h with h | h <;> subst h
  · have henc : enable_encoder "X" true tr = set_command (bs "ENCODER X 1") tr := rfl
    have hsrv : enable_servo "X" false (set_command (bs "ENCODER X 1") tr).2
        = set_command (bs "SERVO X 0") (set_command (bs "ENCODER X 1") tr).2 := rfl
    have hf1 : bs "ENCODER " ++ ("X" : String).data ++ bs " 1\r"
        = bs "ENCODER X 1" ++ bs "\r" := rfl
    have hf2 : bs "SERVO " ++ ("X" : String).data ++ bs " 0\r"
        = bs "SERVO X 0" ++ bs "\r" := rfl
    constructor
    · intro hok
      rw [henc] at hok
      have hinit : stageAxis_init "X" tr
          = enable_servo "X" false (set_command (bs "ENCODER X 1") tr).2 := by
        simp [stageAxis_init, henc, hok]
      rw [hinit, hsrv, hf1, hf2, set_command_written, set_command_written]
      simp
    · rcases set_command_ok_or_commandFailed (bs "ENCODER X 1") tr with h1 | h1
      · have hinit : stageAxis_init "X" tr
            = enable_servo "X" false (set_command (bs "ENCODER X 1") tr).2 := by
          simp [stageAxis_init, henc, h1]
        rw [hinit, hsrv, hf1, set_command_written, set_command_written,
          List.isPrefixOf_iff_prefix]
        exact List.prefix_append _ _
      · have hinit : (stageAxis_init "X" tr).2 = (set_command (bs "ENCODER X 1") tr).2 := by
          simp [stageAxis_init, henc, h1]
        rw [hinit, hf1, set_command_written, List.isPrefixOf_iff_prefix]
  · have henc : enable_encoder "Y" true tr = set_command (bs "ENCODER Y 1") tr := rfl
    have hsrv : enable_servo "Y" false (set_command (bs "ENCODER Y 1") tr).2
        = set_command (bs "SERVO Y 0") (set_command (bs "ENCODER Y 1") tr).2 := rfl
    have hf1 : bs "ENCODER " ++ ("Y" : String).data ++ bs " 1\r"
        = bs "ENCODER Y 1" ++ bs "\r" := rfl
    have hf2 : bs "SERVO " ++ ("Y" : String).data ++ bs " 0\r"
        = bs "SERVO Y 0" ++ bs "\r" := rfl
    constructor
    · intro hok
      rw [henc] at hok
      have hinit : stageAxis_init "Y" tr
          = enable_servo "Y" false (set_command (bs "ENCODER Y 1") tr).2 := by
        simp [stageAxis_init, henc, hok]
      rw [hinit, hsrv, hf1, hf2, set_command_written, set_command_written]
      simp
    · rcases set_command_ok_or_commandFailed (bs "ENCODER Y 1") tr with h1 | h1
      · have hinit : stageAxis_init "Y" tr
            = enable_servo "Y" false (set_command (bs "ENCODER Y 1") tr).2 := by
          simp [stageAxis_init, henc, h1]
        rw [hinit, hsrv, hf1, set_command_written, set_command_written,
          List.isPrefixOf_iff_prefix]
        exact List.prefix_append _ _
      · have hinit : (stageAxis_init "Y" tr).2 = (set_command (bs "ENCODER Y 1") tr).2 := by
          simp [stageAxis_init, henc, h1]
        rw [hinit, hf1, set_command_written, List.isPrefixOf_iff_prefix]

/-- Witness for C10: constructing the X axis adapter over a device that
acknowledges both set commands writes exactly the encoder-enable frame
followed by the servo-disable frame. -/
theorem stageAxis_init_enables_witness :
    (stageAxis_init "X" ⟨5, arrivingAt (bs "0\r0\r") 0, []⟩).2.written
      = [bs "ENCODER X 1\r", bs "SERVO X 0\r"]
    ∧ ([] ++ [bs "ENCODER X 1\r"]).isPrefixOf
        (stageAxis_init "X" ⟨5, arrivingAt (bs "0\r0\r") 0, []⟩).2.written = true :=
  ⟨(stageAxis_init_enables "X" ⟨5, arrivingAt (bs "0\r0\r") 0, []⟩ (Or.inl rfl)).1
      (by decide),
   (stageAxis_init_enables "X" ⟨5, arrivingAt (bs "0\r0\r") 0, []⟩ (Or.inl rfl)).2⟩

end PriorProScan
